import Mathlib

/-!
Verification development for the Plektu backend (src/backend/main.py).
The Python code is shallowly embedded: pure text processing becomes Lean
functions on lists of characters / strings; each HTTP endpoint becomes a
total Lean function parametrised by the outcomes of its external
collaborators (the Bland.ai call provider, the Gemini moderation API, the
Textbelt SMS gateway and the Supabase store), returning the response value of each endpoint together with its persistence side effects.
-/

namespace Plektu

/-- ASCII whitespace as recognised by the Python str.strip method. -/
def isWS (c : Char) : Bool :=
  c = ' ' || c = '\t' || c = '\n' || c = '\r' || c = '\x0b' || c = '\x0c'

/-- Python str.strip() on a list of characters. -/
def trimL (l : List Char) : List Char :=
  ((l.dropWhile isWS).reverse.dropWhile isWS).reverse

/-- Python str.strip() on strings. -/
def pyStrip (s : String) : String := (trimL s.toList).asString

/-- Does the second list start with the first one (Python str.startswith)? -/
def startsWithL : List Char → List Char → Bool
  | [], _ => true
  | _ :: _, [] => false
  | m :: ms, c :: cs => m = c && startsWithL ms cs

/-- Python s.startswith(m) on strings. -/
def startsWithS (m s : String) : Bool := startsWithL m.toList s.toList

/-- Python s.endswith(post) on strings. -/
def endsWithS (post s : String) : Bool :=
  startsWithL post.toList.reverse s.toList.reverse

/-- Everything after the first colon: Python line.split(":", 1)[1]
    (on input known to contain a colon; on colon-free input yields []). -/
def afterColonL : List Char → List Char
  | [] => []
  | c :: rest => if c = ':' then rest else afterColonL rest

/-- Python line.split(":", 1)[1] on strings. -/
def afterColonS (s : String) : String := (afterColonL s.toList).asString

/-- Python s.split("\n") on a character list: "".split gives [""],
    a trailing newline gives a trailing empty field. -/
def splitOnNewline : List Char → List (List Char)
  | [] => [[]]
  | c :: rest =>
    match splitOnNewline rest with
    | [] => [[c]]
    | l :: ls => if c = '\n' then [] :: l :: ls else (c :: l) :: ls

/-- Python s.split("\n") on strings. -/
def pyLines (s : String) : List String := (splitOnNewline s.toList).map List.asString

/-- One-pass embedding of `'\n'.join(re.split(r'(?<=[.!?]) +', text))`
    from improve_transcript_readability: a maximal run of spaces whose
    immediately preceding character is '.', '!' or '?' is a match of the
    pattern and is replaced by one newline; every other character is
    copied. State: `inDrop` = we are inside such a run (its first space
    already emitted the newline, the rest are dropped); `prevT` = the
    previous original character was '.', '!' or '?'. -/
def splitJoinSM : Bool → Bool → List Char → List Char
  | _, _, [] => []
  | inDrop, prevT, c :: rest =>
    if inDrop && c = ' ' then
      splitJoinSM true prevT rest
    else if !inDrop && (prevT && c = ' ') then
      '\n' :: splitJoinSM true false rest
    else
      c :: splitJoinSM false (c = '.' || c = '!' || c = '?') rest

/-- The whole sentence-splitting pass (initial state: not in a run, no
    sentence-terminal character seen yet — the regex lookbehind cannot
    match before position 1). -/
def splitJoin (l : List Char) : List Char := splitJoinSM false false l

/-- Embedding of improve_transcript_readability (main.py lines 249-258).
    The optional punctuation-restoration model is an oracle argument:
    `punct text = none` models both an absent model and one whose
    restore_punctuation call raised (the except clause leaves text
    unchanged); `punct text = some t` models a successful restoration
    returning t. -/
def improve_transcript_readability (punct : String → Option String)
    (text : String) : String :=
  let t := match punct text with
    | some s => s
    | none => text
  (splitJoin t.toList).asString

/-! ## JSON-lite values (what the code inspects in parsed JSON dicts) -/

/-- A JSON scalar as far as the embedded code inspects it. -/
inductive JVal where
  | jbool (b : Bool)
  | jstr (s : String)
  | jnum (n : Int)
  | jnull
  deriving DecidableEq, Repr

/-- A parsed JSON object: finite list of key/value pairs. -/
def JObj : Type := List (String × JVal)

/-- Python d.get(k) / d[k] lookup (first binding wins, as in a dict). -/
def jget (o : JObj) (k : String) : Option JVal :=
  match o.find? (fun p => p.1 = k) with
  | some p => some p.2
  | none => none

/-- Python truthiness of a JSON scalar (`if not moderation_result["allowed"]`). -/
def jtruthy : JVal → Bool
  | .jbool b => b
  | .jstr s => s ≠ ""
  | .jnum n => n ≠ 0
  | .jnull => false

/-! ## Moderation (moderate_call, main.py lines 81-126) -/

/-- Outcome of the regex search for a brace-delimited object followed by json.loads on
    the text extracted from the Gemini 200 response, including a raised
    extraction chain (the chained result.get lookups, caught by the
    enclosing except). -/
inductive ParseOutcome where
  | raised
  | noMatch
  | loadFail
  | loaded (o : JObj)

/-- Outcome of the requests.post call to the Gemini API: the whole call
    raised, or an HTTP response arrived with the given status code, whose
    body then parses per ParseOutcome. -/
inductive GeminiOutcome where
  | exn
  | resp (status_code : Nat) (parse : ParseOutcome)

/-- The emergency number suffix list from moderate_call. -/
def emergency_numbers : List String := ["911", "999", "112", "000"]

/-- Embedding of moderate_call. `gkey` is GEMINI_API_KEY (none = unset);
    `net` is the outcome of the HTTP call, consulted only when the
    function reaches it. The reason strings on the fail-open branches are
    abbreviated (the code interpolates exception text into some of them);
    no claim depends on their exact contents. -/
def moderate_call (gkey : Option String) (phone_number : Option String)
    (net : GeminiOutcome) : JObj :=
  if (match phone_number with
      | some p => emergency_numbers.any (fun n => endsWithS n p)
      | none => false) then
    [("allowed", .jbool false), ("reason", .jstr "Emergency services number detected")]
  else if gkey.isNone then
    [("allowed", .jbool true), ("reason", .jstr "")]
  else
    match net with
    | .exn => [("allowed", .jbool true), ("reason", .jstr "Moderation error")]
    | .resp status_code parse =>
      if status_code ≠ 200 then
        [("allowed", .jbool true), ("reason", .jstr "Moderation service unavailable")]
      else
        match parse with
        | .raised => [("allowed", .jbool true), ("reason", .jstr "Moderation error")]
        | .noMatch =>
          [("allowed", .jbool true), ("reason", .jstr "Could not parse moderation response")]
        | .loadFail =>
          [("allowed", .jbool true), ("reason", .jstr "Could not parse moderation response")]
        | .loaded o => o

/-! ## Activity ledger records (the in-memory call_history dict) -/

/-- One record of the per-phone-number history list. Call records carry
    no "type" key (type? = none); SMS records carry type "sms". The
    status strings appearing in the code are "success", "error" and
    "exception". -/
structure HistRecord where
  type? : Option String
  status : String
  deriving DecidableEq, Repr

/-- The record a successful call appends (main.py lines 197-208). -/
def callSuccessRecord : HistRecord := ⟨none, "success"⟩

/-- The record a failed Bland.ai call appends (main.py lines 233-243). -/
def callErrorRecord : HistRecord := ⟨none, "error"⟩

/-- The record an SMS outcome appends (main.py lines 909-948). -/
def smsRecord (status : String) : HistRecord := ⟨some "sms", status⟩

/-- Python truthiness of an optional string (None and "" are falsy):
    used for `if req.user_id:` and `if supabase and user_id:`. -/
def truthyS : Option String → Bool
  | some s => s ≠ ""
  | none => false

/-! ## Call admission (trigger_call, main.py lines 133-247) -/

def MAX_CALLS_PER_GUEST : Nat := 10
def MAX_CALLS_PER_USER : Nat := 5

structure CallRequest where
  phone_number : String
  topic : String
  admin : Bool
  user_id : Option String

/-- The calls_left field of a successful trigger_call response. -/
inductive CallsLeft where
  | num (n : Int)
  | unlimited
  deriving DecidableEq, Repr

/-- Outcome of the requests.post to the Bland.ai /v1/calls endpoint:
    raised, or a response with resp.ok and the parsed call_id. -/
inductive BlandOutcome where
  | exn
  | resp (ok : Bool) (call_id : Option String)

/-- Response of the /api/call endpoint as the embedded code can produce
    it. pyKeyError models the uncaught KeyError raised by
    moderation_result["allowed"] / ["reason"] when the moderation dict
    lacks that key (FastAPI turns it into a 500). -/
inductive TriggerCallResult where
  | moderationRejected (reason : JVal)
  | limitReached
  | callTriggered (call_id : Option String) (calls_left : CallsLeft)
  | httpError (code : Nat) (detail : String)
  | pyKeyError
  deriving DecidableEq, Repr

/-- Embedding of trigger_call. `history` is call_history.get(phone, []);
    the returned list is the history for that phone number after the
    request. The Bland.ai HTTPException raised on a non-ok response is
    itself caught by the surrounding except and re-raised as a 500, so
    both provider-failure branches surface as code 500. -/
def trigger_call (bland_key gkey : Option String) (req : CallRequest)
    (net : GeminiOutcome) (bland : BlandOutcome)
    (history : List HistRecord) : TriggerCallResult × List HistRecord :=
  match bland_key with
  | none => (.httpError 500 "BLAND_API_KEY not set in environment.", history)
  | some _ =>
    let modStep : Option TriggerCallResult :=
      if req.admin then none
      else
        let m := moderate_call gkey (some req.phone_number) net
        match jget m "allowed" with
        | none => some .pyKeyError
        | some v =>
          if jtruthy v then none
          else
            match jget m "reason" with
            | none => some .pyKeyError
            | some r => some (.moderationRejected r)
    match modStep with
    | some r => (r, history)
    | none =>
      let max_calls : Nat :=
        if truthyS req.user_id then MAX_CALLS_PER_USER else MAX_CALLS_PER_GUEST
      let current_calls :=
        (history.filter (fun c => c.status = "success")).length
      let calls_left : Int := (max_calls : Int) - (current_calls : Int)
      if calls_left ≤ 0 && !req.admin then
        (.limitReached, history)
      else
        match bland with
        | .exn => (.httpError 500 "Error calling Bland.ai", history)
        | .resp ok call_id =>
          if ok then
            (.callTriggered call_id
               (if req.admin then .unlimited else .num calls_left),
             history ++ [callSuccessRecord])
          else
            (.httpError 500 "Error calling Bland.ai: Bland.ai call failed",
             history ++ [callErrorRecord])

/-! ## SMS sending (send_sms, main.py lines 859-952) -/

structure SMSRequest where
  phone_number : String
  message : String
  admin : Bool
  user_id : Option String

/-- Outcome of the requests.post to Textbelt together with resp.json():
    raised, or a parsed body with its success flag, textId and
    quotaRemaining fields. -/
inductive TextbeltOutcome where
  | exn
  | resp (success : Bool) (textId : Option String) (quotaRemaining : Option Int)

/-- Response of the /api/sms endpoint as the embedded code can produce it. -/
inductive SendSMSResult where
  | limitReached (max_sms : Nat)
  | sent (quotaRemaining : Option Int) (textId : Option String)
  | httpError (code : Nat) (detail : String)
  deriving DecidableEq, Repr

/-- Embedding of send_sms. `history` is call_history.get(phone, []) (the
    code reuses the call history list for SMS records). Note that the
    HTTPException(400) raised on a Textbelt failure is caught by the
    except clause of the function itself, which appends a second, "exception"
    record and re-raises as 500. -/
def send_sms (text_key : Option String) (req : SMSRequest)
    (net : TextbeltOutcome) (history : List HistRecord) :
    SendSMSResult × List HistRecord :=
  match text_key with
  | none => (.httpError 500 "TEXT_KEY not set in environment.", history)
  | some _ =>
    let max_sms : Nat := if truthyS req.user_id then 10 else 3
    let limitStep : Option SendSMSResult :=
      if req.admin then none
      else
        let sms_sent_count :=
          (history.filter (fun r => r.type? = some "sms")).length
        if sms_sent_count ≥ max_sms then some (.limitReached max_sms) else none
    match limitStep with
    | some r => (r, history)
    | none =>
      match net with
      | .exn =>
        (.httpError 500 "Error sending SMS", history ++ [smsRecord "exception"])
      | .resp success textId quotaRemaining =>
        if success then
          (.sent quotaRemaining textId, history ++ [smsRecord "success"])
        else
          (.httpError 500 "Error sending SMS: Failed to send SMS",
           history ++ [smsRecord "error", smsRecord "exception"])

/-! ## Transcript data (get_call_transcript, main.py lines 345-503) -/

/-- An utterance the aligner builds: a dict with exactly the keys
    "speaker" and "text". -/
structure Utt where
  speaker : String
  text : String
  deriving DecidableEq, Repr

/-- A provider transcript segment dict as far as the code inspects it:
    .get("speaker", "Unknown"), .get("from") and .get("text", "") on a
    JSON object that may lack any of the three keys. -/
structure Seg where
  speaker? : Option String
  from? : Option String
  text? : Option String
  deriving DecidableEq, Repr

/-- segment.get("speaker", "Unknown") (corrected-endpoint path). -/
def segSpeaker (s : Seg) : String :=
  match s.speaker? with
  | some v => v
  | none => "Unknown"

/-- segment.get("text", "").strip(). -/
def segText (s : Seg) : String :=
  pyStrip (match s.text? with | some v => v | none => "")

/-- The flat rendering the corrected-endpoint path builds (lines
    384-388): segments whose stripped text is empty contribute nothing;
    the others contribute "speaker: text\n" with the stripped text. -/
def concatRawSegs : List Seg → String
  | [] => ""
  | s :: rest =>
    (if segText s ≠ "" then segSpeaker s ++ ": " ++ segText s ++ "\n" else "")
      ++ concatRawSegs rest

/-- Speaker mapping of the transcript_aligned path (line 426):
    "ai" becomes Agent, anything else becomes User. -/
def fromSpeaker (s : Seg) : String :=
  if s.from? = some "ai" then "Agent" else "User"

/-- The aligned list the transcript_aligned path builds (lines 425-429):
    segments with empty stripped text are dropped, the rest become
    utterances with the mapped speaker and stripped text. -/
def alignSegs : List Seg → List Utt
  | [] => []
  | s :: rest =>
    if segText s ≠ "" then ⟨fromSpeaker s, segText s⟩ :: alignSegs rest
    else alignSegs rest

/-- The flat rendering built alongside alignSegs (line 430) and by the
    cache-free paths generally: "speaker: text\n" per utterance. -/
def concatUtts : List Utt → String
  | [] => ""
  | u :: rest => u.speaker ++ ": " ++ u.text ++ "\n" ++ concatUtts rest

/-- One iteration of the flat-text speaker-alignment loop (lines
    457-478), acting on the accumulated aligned list: blank lines are
    skipped; "AI:"/"Agent:" lines append an Agent utterance and
    "Human:"/"User:" lines a User utterance, both with the text after the
    first colon, stripped; an unmarked line appends an Agent utterance if
    the list is empty and otherwise the speaker opposite to the last
    utterance. -/
def alignFlatStep (acc : List Utt) (line : String) : List Utt :=
  let l := pyStrip line
  if l = "" then acc
  else if startsWithS "AI:" l || startsWithS "Agent:" l then
    acc ++ [⟨"Agent", pyStrip (afterColonS l)⟩]
  else if startsWithS "Human:" l || startsWithS "User:" l then
    acc ++ [⟨"User", pyStrip (afterColonS l)⟩]
  else
    match acc.getLast? with
    | none => acc ++ [⟨"Agent", l⟩]
    | some last =>
      acc ++ [⟨if last.speaker = "Agent" then "User" else "Agent", l⟩]

/-- The flat-text aligner, path (b): split the normalized text on
    newlines and fold the loop body over the lines. -/
def alignFlat (text : String) : List Utt :=
  (pyLines text).foldl alignFlatStep []

/-! ## The transcript endpoint -/

/-- The "aligned" field of a transcript response: JSON null, the raw
    provider segment list (corrected path), or a built utterance list
    (the other paths). -/
inductive AlignedField where
  | jnull
  | raw (segs : List Seg)
  | utts (us : List Utt)
  deriving DecidableEq, Repr

/-- The aligned_transcript column of a stored row: falsy (NULL or ""),
    a string json.loads rejects, or one that parses to an aligned value. -/
inductive StoredAligned where
  | empty
  | bad
  | val (v : AlignedField)

/-- Outcome of the Supabase call_transcript .single() query: the query
    (or anything in the surrounding try) raised, returned falsy data, or
    returned a row with its transcript and aligned_transcript columns.
    A returned row is a non-empty dict and therefore truthy. -/
inductive StoreLookup where
  | raised
  | noData
  | row (transcript : Option String) (aligned : StoredAligned)

/-- Outcome of the requests.get on /v1/calls/id/correct together with
    .json(): raised, non-ok (silently skipped), or ok with the parsed
    parsed "aligned" field of the body. -/
inductive CorrectedResp where
  | exn
  | notOk
  | ok (aligned? : Option (List Seg))

/-- The fields of the /v1/calls/id detail body the code inspects.
    completed is tri-state (absent or null, true, false): the code tests
    `data.get("completed") is False`, so only an explicit false counts. -/
structure DetailData where
  transcript_aligned : Option (List Seg)
  transcript : Option String
  status : Option String
  completed : Option Bool
  call_id : Option String

/-- Outcome of the requests.get on /v1/calls/id: raised, a non-ok
    response (the HTTPException raised for it is caught by the outer
    except and re-raised as a 500), or ok with the parsed body. -/
inductive DetailResp where
  | exn
  | notOk (code : Nat)
  | ok (d : DetailData)

/-- A persistence attempt on the call_transcript table (made only when
    the store client is configured and user_id is truthy; its own failure
    is logged and changes nothing, so the attempted operation is the
    whole observable side effect). -/
inductive SaveOp where
  | upsert (call_id : String) (user_id : String) (transcript : String)
      (aligned : AlignedField)
  | insert (call_id : Option String) (user_id : String) (transcript : String)
      (aligned : AlignedField)
  deriving DecidableEq, Repr

/-- Response of the transcript endpoints: a success body (its transcript
    field can be null on a cache hit of a row with a NULL transcript
    column), the pending body, the not-available error body, or an HTTP
    error. -/
inductive TResult where
  | success (transcript : Option String) (aligned : AlignedField)
  | pending
  | unavailable
  | httpError (code : Nat)
  deriving DecidableEq, Repr

/-- The trailing status check (lines 497-501): pending when the provider
    reports the call in progress, otherwise the not-available error. -/
def pendingOrError (d : DetailData) : TResult :=
  if d.status = some "in-progress" || d.completed = some false then .pending
  else .unavailable

/-- Embedding of get_call_transcript (main.py lines 345-503). Arguments:
    the BLAND_API_KEY, whether the Supabase client is configured, the
    user_id query parameter, the path call_id, the outcomes of the three
    external requests (store lookup, corrected-transcript endpoint, call
    detail endpoint) and the punctuation oracle. Returns the response
    together with the list of attempted persistence operations. -/
def get_call_transcript (bland_key : Option String) (has_supabase : Bool)
    (user_id : Option String) (call_id : String) (store : StoreLookup)
    (corrected : CorrectedResp) (detail : DetailResp)
    (punct : String → Option String) : TResult × List SaveOp :=
  match bland_key with
  | none => (.httpError 500, [])
  | some _ =>
    let cacheStep : Option TResult :=
      if has_supabase && truthyS user_id then
        match store with
        | .raised => none
        | .noData => none
        | .row tr al =>
          match al with
          | .empty => some (.success tr .jnull)
          | .bad => none
          | .val v => some (.success tr v)
      else none
    match cacheStep with
    | some r => (r, [])
    | none =>
      let correctedStep : Option (TResult × List SaveOp) :=
        match corrected with
        | .exn => none
        | .notOk => none
        | .ok aligned? =>
          match aligned? with
          | none => none
          | some segs =>
            if segs = [] then none
            else
              let concat := concatRawSegs segs
              let ops :=
                match user_id with
                | some u =>
                  if has_supabase && truthyS (some u) then
                    [SaveOp.upsert call_id u concat (.raw segs)]
                  else []
                | none => []
              some (.success (some concat) (.raw segs), ops)
      match correctedStep with
      | some r => r
      | none =>
        match detail with
        | .exn => (.httpError 500, [])
        | .notOk _ => (.httpError 500, [])
        | .ok d =>
          match d.transcript_aligned with
          | some segs =>
            if segs ≠ [] then
              let us := alignSegs segs
              let concat := concatUtts us
              let ops :=
                match user_id with
                | some u =>
                  if has_supabase && truthyS (some u) then
                    [SaveOp.insert d.call_id u concat (.utts us)]
                  else []
                | none => []
              (.success (some concat) (.utts us), ops)
            else
              match d.transcript with
              | some t =>
                if t ≠ "" then
                  let improved := improve_transcript_readability punct t
                  let us := alignFlat improved
                  if us ≠ [] then
                    let ops :=
                      match user_id with
                      | some u =>
                        if has_supabase && truthyS (some u) then
                          [SaveOp.insert d.call_id u improved (.utts us)]
                        else []
                      | none => []
                    (.success (some improved) (.utts us), ops)
                  else (pendingOrError d, [])
                else (pendingOrError d, [])
              | none => (pendingOrError d, [])
          | none =>
            match d.transcript with
            | some t =>
              if t ≠ "" then
                let improved := improve_transcript_readability punct t
                let us := alignFlat improved
                if us ≠ [] then
                  let ops :=
                    match user_id with
                    | some u =>
                      if has_supabase && truthyS (some u) then
                        [SaveOp.insert d.call_id u improved (.utts us)]
                      else []
                    | none => []
                  (.success (some improved) (.utts us), ops)
                else (pendingOrError d, [])
              else (pendingOrError d, [])
            | none => (pendingOrError d, [])

/-- Embedding of get_call_corrected_transcript (main.py lines 699-857).
    In the source the body of this endpoint is a verbatim copy of
    the body of get_call_transcript (only the function name, route and
    docstring differ), so the embedding repeats the same definition. -/
def get_call_corrected_transcript (bland_key : Option String)
    (has_supabase : Bool) (user_id : Option String) (call_id : String)
    (store : StoreLookup) (corrected : CorrectedResp) (detail : DetailResp)
    (punct : String → Option String) : TResult × List SaveOp :=
  match bland_key with
  | none => (.httpError 500, [])
  | some _ =>
    let cacheStep : Option TResult :=
      if has_supabase && truthyS user_id then
        match store with
        | .raised => none
        | .noData => none
        | .row tr al =>
          match al with
          | .empty => some (.success tr .jnull)
          | .bad => none
          | .val v => some (.success tr v)
      else none
    match cacheStep with
    | some r => (r, [])
    | none =>
      let correctedStep : Option (TResult × List SaveOp) :=
        match corrected with
        | .exn => none
        | .notOk => none
        | .ok aligned? =>
          match aligned? with
          | none => none
          | some segs =>
            if segs = [] then none
            else
              let concat := concatRawSegs segs
              let ops :=
                match user_id with
                | some u =>
                  if has_supabase && truthyS (some u) then
                    [SaveOp.upsert call_id u concat (.raw segs)]
                  else []
                | none => []
              some (.success (some concat) (.raw segs), ops)
      match correctedStep with
      | some r => r
      | none =>
        match detail with
        | .exn => (.httpError 500, [])
        | .notOk _ => (.httpError 500, [])
        | .ok d =>
          match d.transcript_aligned with
          | some segs =>
            if segs ≠ [] then
              let us := alignSegs segs
              let concat := concatUtts us
              let ops :=
                match user_id with
                | some u =>
                  if has_supabase && truthyS (some u) then
                    [SaveOp.insert d.call_id u concat (.utts us)]
                  else []
                | none => []
              (.success (some concat) (.utts us), ops)
            else
              match d.transcript with
              | some t =>
                if t ≠ "" then
                  let improved := improve_transcript_readability punct t
                  let us := alignFlat improved
                  if us ≠ [] then
                    let ops :=
                      match user_id with
                      | some u =>
                        if has_supabase && truthyS (some u) then
                          [SaveOp.insert d.call_id u improved (.utts us)]
                        else []
                      | none => []
                    (.success (some improved) (.utts us), ops)
                  else (pendingOrError d, [])
                else (pendingOrError d, [])
              | none => (pendingOrError d, [])
          | none =>
            match d.transcript with
            | some t =>
              if t ≠ "" then
                let improved := improve_transcript_readability punct t
                let us := alignFlat improved
                if us ≠ [] then
                  let ops :=
                    match user_id with
                    | some u =>
                      if has_supabase && truthyS (some u) then
                        [SaveOp.insert d.call_id u improved (.utts us)]
                      else []
                    | none => []
                  (.success (some improved) (.utts us), ops)
                else (pendingOrError d, [])
              else (pendingOrError d, [])
            | none => (pendingOrError d, [])

/-- Does a transcript response lie in the three terminal states named by
    the spec (success, pending, unavailable)? -/
def isTerminalTriple : TResult → Bool
  | .success _ _ => true
  | .pending => true
  | .unavailable => true
  | .httpError _ => false

/-! ## Theorems -/

/-- Claim C10: the two transcript endpoints, get_call_transcript and
    get_call_corrected_transcript, are equivalent: for every key/client
    configuration, requester, call id, store state and sequence of
    provider responses, both produce the same returned outcome and the
    same persistence side effects. (In the source the two bodies are a
    verbatim copy of each other.) -/
theorem claim10_endpoints_equivalent (bland_key : Option String)
    (has_supabase : Bool) (user_id : Option String) (call_id : String)
    (store : StoreLookup) (corrected : CorrectedResp) (detail : DetailResp)
    (punct : String → Option String) :
    get_call_transcript bland_key has_supabase user_id call_id store
        corrected detail punct
      = get_call_corrected_transcript bland_key has_supabase user_id call_id
          store corrected detail punct := rfl

/-- Claim C6: in the flat-text aligner (path b), blank lines are
    skipped; a line starting with "AI:" or "Agent:" becomes an Agent
    utterance and one starting with "Human:" or "User:" a User
    utterance, with the marker prefix stripped; an unmarked line becomes
    Agent when it is the first utterance and otherwise takes the speaker
    opposite to the immediately preceding one; and the concrete marked
    text "Agent: hi\nUser: hello\nbye" yields
    [Agent: hi, User: hello, Agent: bye]. -/
theorem claim6_flat_aligner :
    (∀ (acc : List Utt) (line : String),
       pyStrip line = "" → alignFlatStep acc line = acc)
    ∧ (∀ (acc : List Utt) (line : String),
         (startsWithS "AI:" (pyStrip line) || startsWithS "Agent:" (pyStrip line))
             = true →
         alignFlatStep acc line
           = acc ++ [⟨"Agent", pyStrip (afterColonS (pyStrip line))⟩])
    ∧ (∀ (acc : List Utt) (line : String),
         (startsWithS "AI:" (pyStrip line) || startsWithS "Agent:" (pyStrip line))
             = false →
         (startsWithS "Human:" (pyStrip line) || startsWithS "User:" (pyStrip line))
             = true →
         alignFlatStep acc line
           = acc ++ [⟨"User", pyStrip (afterColonS (pyStrip line))⟩])
    ∧ (∀ (acc : List Utt) (line : String),
         pyStrip line ≠ "" →
         (startsWithS "AI:" (pyStrip line) || startsWithS "Agent:" (pyStrip line))
             = false →
         (startsWithS "Human:" (pyStrip line) || startsWithS "User:" (pyStrip line))
             = false →
         alignFlatStep acc line
           = acc ++ [⟨(match acc.getLast? with
                       | none => "Agent"
                       | some last =>
                         if last.speaker = "Agent" then "User" else "Agent"),
                      pyStrip line⟩])
    ∧ alignFlat "Agent: hi\nUser: hello\nbye"
        = [⟨"Agent", "hi"⟩, ⟨"User", "hello"⟩, ⟨"Agent", "bye"⟩] := by
  refine ⟨?_, ?_, ?_, ?_, ?_⟩
  · intro acc line h
    simp [alignFlatStep, h]
  · intro acc line h
    have hne : ¬ pyStrip line = "" := by
      intro he
      rw [he] at h
      simp [startsWithS, startsWithL] at h
    simp [alignFlatStep, hne, h]
  · intro acc line h1 h2
    have hne : ¬ pyStrip line = "" := by
      intro he
      rw [he] at h2
      simp [startsWithS, startsWithL] at h2
    simp [alignFlatStep, hne, h1, h2]
  · intro acc line hne h1 h2
    simp only [alignFlatStep, hne, h1, h2, if_false, Bool.false_eq_true, ite_false]
    cases acc.getLast? <;> simp [alignFlatStep, hne, h1, h2]
  · decide

/-- Witness for claim C6: the blank-line conjunct applied at a concrete
    whitespace-only line. -/
theorem claim6_witness : alignFlatStep [] "   " = [] :=
  claim6_flat_aligner.1 [] "   " (by decide)

/-- The sentence-splitting pass only deletes spaces and inserts
    newlines, so filtering out whitespace is unaffected by it. -/
theorem splitJoinSM_filter_notWS (l : List Char) :
    ∀ inDrop prevT : Bool,
      (splitJoinSM inDrop prevT l).filter (fun c => !(isWS c))
        = l.filter (fun c => !(isWS c)) := by
  induction l with
  | nil => intro inDrop prevT; rfl
  | cons c rest ih =>
    intro inDrop prevT
    by_cases hc : c = ' '
    · subst hc
      have hfc : (' ' :: rest).filter (fun c => !(isWS c))
          = rest.filter (fun c => !(isWS c)) := rfl
      cases inDrop with
      | true =>
        have hred : splitJoinSM true prevT (' ' :: rest)
            = splitJoinSM true prevT rest := rfl
        rw [hred, ih, hfc]
      | false =>
        cases prevT with
        | true =>
          have hred : splitJoinSM false true (' ' :: rest)
              = '\n' :: splitJoinSM true false rest := rfl
          have hfn : ('\n' :: splitJoinSM true false rest).filter (fun c => !(isWS c))
              = (splitJoinSM true false rest).filter (fun c => !(isWS c)) := rfl
          rw [hred, hfn, ih, hfc]
        | false =>
          have hred : splitJoinSM false false (' ' :: rest)
              = ' ' :: splitJoinSM false false rest := rfl
          have hfn : (' ' :: splitJoinSM false false rest).filter (fun c => !(isWS c))
              = (splitJoinSM false false rest).filter (fun c => !(isWS c)) := rfl
          rw [hred, hfn, ih, hfc]
    · have hws : (decide (c = ' ')) = false := by simp [hc]
      have hred : splitJoinSM inDrop prevT (c :: rest)
          = c :: splitJoinSM false
              (decide (c = '.') || decide (c = '!') || decide (c = '?')) rest := by
        simp only [splitJoinSM, hws, Bool.and_false, Bool.false_eq_true, if_false]
      rw [hred, List.filter_cons, List.filter_cons, ih]

/-- Claim C8: the normalizer always returns a string (it is a total
    function); when the punctuation-restoration oracle is absent or
    raises it degrades to the unmodified text, and the output then keeps
    every non-whitespace character of the input (the only edits are
    whitespace edits: spaces dropped and newlines inserted at sentence
    boundaries); when the oracle succeeds the same holds relative to the
    output of the oracle. -/
theorem claim8_normalizer_preserves (punct : String → Option String)
    (text : String) :
    (punct text = none →
       (improve_transcript_readability punct text).toList.filter (fun c => !(isWS c))
         = text.toList.filter (fun c => !(isWS c)))
    ∧ (∀ t, punct text = some t →
       (improve_transcript_readability punct text).toList.filter (fun c => !(isWS c))
         = t.toList.filter (fun c => !(isWS c))) := by
  constructor
  · intro h
    simp only [improve_transcript_readability, h]
    exact splitJoinSM_filter_notWS text.toList false false
  · intro t h
    simp only [improve_transcript_readability, h]
    exact splitJoinSM_filter_notWS t.toList false false

/-- Witness for claim C8: with an absent punctuation model, normalizing
    a concrete two-sentence string keeps its non-whitespace characters. -/
theorem claim8_witness :
    (improve_transcript_readability (fun _ => none) "Hi there. Bye").toList.filter
        (fun c => !(isWS c))
      = ("Hi there. Bye").toList.filter (fun c => !(isWS c)) :=
  (claim8_normalizer_preserves (fun _ => none) "Hi there. Bye").1 rfl

/-- Counterexample to claim C5 as stated: on the corrected-endpoint
    path the endpoint returns the provider segment list unfiltered, so
    with an input containing a segment of empty trimmed text, the
    returned aligned sequence still has the full input length (here 2),
    contradicting length equality iff no empty-trimmed segment. Only the
    flat rendering drops the empty segment. -/
theorem claim5_counterexample :
    ((get_call_transcript (some "k") false none "c" .noData
        (.ok (some [⟨some "A", none, some " "⟩, ⟨some "B", none, some "yo"⟩]))
        .exn (fun _ => none)).1
      = .success (some "B: yo\n")
          (.raw [⟨some "A", none, some " "⟩, ⟨some "B", none, some "yo"⟩]))
    ∧ segText ⟨some "A", none, some " "⟩ = ""
    ∧ ([⟨some "A", none, some " "⟩, ⟨some "B", none, some "yo"⟩] : List Seg).length
        = 2 := by
  refine ⟨?_, ?_, ?_⟩ <;> rfl

/-- Claim C5 amended: the aligned-field aligner (transcript_aligned
    path) drops exactly the segments with empty trimmed text — its
    output is the filtered input mapped to utterances, its length is at
    most the input length, with equality iff no input segment has empty
    trimmed text. (On the corrected-endpoint path the returned aligned
    list is the raw input, unfiltered.) -/
theorem claim5_aligner_drops_empty (segs : List Seg) :
    alignSegs segs
      = (segs.filter (fun s => decide (segText s ≠ ""))).map
          (fun s => ⟨fromSpeaker s, segText s⟩)
    ∧ (alignSegs segs).length ≤ segs.length
    ∧ ((alignSegs segs).length = segs.length ↔ ∀ s ∈ segs, segText s ≠ "") := by
  induction segs with
  | nil => exact ⟨rfl, Nat.le_refl _, by simp [alignSegs]⟩
  | cons s rest ih =>
    obtain ⟨ih1, ih2, ih3⟩ := ih
    by_cases hs : segText s = ""
    · have hred : alignSegs (s :: rest) = alignSegs rest := by
        simp [alignSegs, hs]
      refine ⟨?_, ?_, ?_⟩
      · rw [hred, List.filter_cons]
        simp [hs, ih1]
      · rw [hred]
        exact Nat.le_succ_of_le ih2
      · rw [hred]
        constructor
        · intro hlen
          rw [List.length_cons] at hlen
          omega
        · intro hall
          exact absurd hs (hall s (List.mem_cons_self s rest))
    · have hred : alignSegs (s :: rest)
          = ⟨fromSpeaker s, segText s⟩ :: alignSegs rest := by
        simp [alignSegs, hs]
      refine ⟨?_, ?_, ?_⟩
      · rw [hred, List.filter_cons]
        simp [hs, ih1]
      · rw [hred]
        simpa using Nat.succ_le_succ ih2
      · rw [hred]
        simp only [List.length_cons, Nat.succ_inj]
        rw [ih3]
        constructor
        · intro hall t ht
          rcases List.mem_cons.mp ht with h | h
          · rw [h]; exact hs
          · exact hall t h
        · intro hall t ht
          exact hall t (List.mem_cons_of_mem s ht)

/-- Counterexample to claim C2 as stated: on the corrected-endpoint
    path the flat transcript is built from trimmed text of non-empty
    segments while the aligned list is returned raw, so the flat string
    "Agent: hi\n" differs from the "speaker: text\n" rendering of the
    returned segment (whose text is " hi " untrimmed); and on the
    flat-transcript path the returned transcript is the normalized text
    "hello", not the rendering "Agent: hello\n" of the returned
    sequence. -/
theorem claim2_counterexample :
    ((get_call_transcript (some "k") false none "c" .noData
        (.ok (some [⟨some "Agent", none, some " hi "⟩])) .exn (fun _ => none)).1
      = .success (some "Agent: hi\n") (.raw [⟨some "Agent", none, some " hi "⟩]))
    ∧ ("Agent" ++ ": " ++ " hi " ++ "\n") ≠ "Agent: hi\n"
    ∧ ((get_call_transcript (some "k") false none "c" .noData .notOk
        (.ok ⟨none, some "hello", none, none, none⟩) (fun _ => none)).1
      = .success (some "hello") (.utts [⟨"Agent", "hello"⟩]))
    ∧ concatUtts [⟨"Agent", "hello"⟩] ≠ "hello" := by
  refine ⟨rfl, by decide, rfl, by decide⟩

/-- Claim C2 amended: on the aligned-field (transcript_aligned) live
    path the invariant holds: the returned flat transcript is exactly
    the concatenation of "speaker: text\n" over the returned aligned
    utterance sequence. On the corrected-endpoint path the aligned list
    is returned raw while the flat rendering trims text and drops
    empty-trimmed segments, and on the flat-transcript path the returned
    transcript is the normalized flat text, so the two representations
    can diverge there. -/
theorem claim2_aligned_path_invariant (bk cid : String) (hs : Bool)
    (uid : Option String) (d : DetailData) (punct : String → Option String)
    (segs : List Seg) (hta : d.transcript_aligned = some segs)
    (hne : segs ≠ []) :
    (get_call_transcript (some bk) hs uid cid .noData .notOk (.ok d) punct).1
      = .success (some (concatUtts (alignSegs segs))) (.utts (alignSegs segs)) := by
  simp only [get_call_transcript, hta, ite_self]
  rw [if_pos hne]

/-- Witness for claim C2: the aligned-field path at a concrete
    response with two segments, one of them blank. -/
theorem claim2_witness :
    (get_call_transcript (some "k") false none "c" .noData .notOk
        (.ok ⟨some [⟨none, some "ai", some " one "⟩, ⟨none, none, some " "⟩],
              none, none, none, none⟩) (fun _ => none)).1
      = .success (some "Agent: one\n") (.utts [⟨"Agent", "one"⟩]) := by
  have h := claim2_aligned_path_invariant "k" "c" false none
      ⟨some [⟨none, some "ai", some " one "⟩, ⟨none, none, some " "⟩],
        none, none, none, none⟩ (fun _ => none)
      [⟨none, some "ai", some " one "⟩, ⟨none, none, some " "⟩] rfl (by decide)
  rw [h]
  rfl

/-- Counterexample to claim C4 as stated: a transcript is persisted for
    this call id (the store row holds "cached"), yet a requester who
    supplies no user_id skips the cache read entirely — the endpoint
    contacts the live corrected-transcript source and returns its value
    instead of the cached one. -/
theorem claim4_counterexample :
    ((get_call_transcript (some "k") true none "cid"
        (.row (some "cached") (.val (.utts [⟨"Agent", "hi"⟩])))
        (.ok (some [⟨some "Agent", none, some " hi "⟩])) .exn (fun _ => none))
      = (.success (some "Agent: hi\n") (.raw [⟨some "Agent", none, some " hi "⟩]),
         []))
    ∧ (TResult.success (some "Agent: hi\n")
          (.raw [⟨some "Agent", none, some " hi "⟩])
        ≠ .success (some "cached") (.utts [⟨"Agent", "hi"⟩])) := by
  exact ⟨rfl, by decide⟩

/-- Claim C4 amended: when the store client is configured, the
    requester supplies a non-empty user_id, and the stored row for the
    call id is retrieved with an aligned column that is absent or
    parsable, the endpoint returns the cached transcript verbatim and
    performs no live provider call — the result is the same for every
    corrected-endpoint and call-detail outcome, and no persistence is
    attempted. A requester without user_id bypasses the cache even when
    a transcript is persisted. -/
theorem claim4_cache_requires_user (bk u cid : String) (hu : u ≠ "")
    (tr : Option String) (v : AlignedField) (corrected : CorrectedResp)
    (detail : DetailResp) (punct : String → Option String) :
    (get_call_transcript (some bk) true (some u) cid (.row tr (.val v))
        corrected detail punct
      = (.success tr v, []))
    ∧ (get_call_transcript (some bk) true (some u) cid (.row tr .empty)
        corrected detail punct
      = (.success tr .jnull, [])) := by
  have htr : truthyS (some u) = true := by
    simp [truthyS, hu]
  constructor
  · simp [get_call_transcript, htr]
  · simp [get_call_transcript, htr]

/-- Witness for claim C4: a concrete cached row is returned verbatim
    even though the live corrected endpoint would offer different data. -/
theorem claim4_witness :
    get_call_transcript (some "k") true (some "u1") "cid"
        (.row (some "cached") (.val (.utts [⟨"Agent", "hi"⟩])))
        (.ok (some [⟨some "X", none, some "live"⟩])) .exn (fun _ => none)
      = (.success (some "cached") (.utts [⟨"Agent", "hi"⟩]), []) :=
  (claim4_cache_requires_user "k" "u1" "cid" (by decide) (some "cached")
      (.utts [⟨"Agent", "hi"⟩]) (.ok (some [⟨some "X", none, some "live"⟩]))
      .exn (fun _ => none)).1

/-- Counterexample to claim C7 as stated: when the call-detail request
    fails (here a 404 from the provider), the endpoint raises an
    HTTPException that surfaces as a 500 — a fourth outcome that is none
    of success, pending, or unavailable. -/
theorem claim7_counterexample :
    (get_call_transcript (some "k") false none "cid" .noData .notOk
        (.notOk 404) (fun _ => none)).1
      = .httpError 500
    ∧ isTerminalTriple (.httpError 500) = false := ⟨rfl, rfl⟩

/-- Claim C7 amended: every transcript-retrieval request terminates in
    exactly one of four outcomes — success, pending, unavailable, or an
    HTTP error (missing key, or a failed or raising provider detail
    request). On a well-formed detail response carrying no transcript
    data, the outcome is pending exactly when the provider reports
    status "in-progress" or completed = false, and otherwise
    unavailable; pending is distinct from success and from the
    unavailable error. -/
theorem claim7_pending_outcome (bk cid : String) (uid : Option String)
    (d : DetailData) (punct : String → Option String)
    (hta : d.transcript_aligned = none ∨ d.transcript_aligned = some [])
    (ht : d.transcript = none ∨ d.transcript = some "") :
    (get_call_transcript (some bk) false uid cid .noData .notOk (.ok d) punct
      = ((if d.status = some "in-progress" ∨ d.completed = some false
          then TResult.pending else TResult.unavailable), []))
    ∧ TResult.pending ≠ TResult.unavailable
    ∧ (∀ (t : Option String) (a : AlignedField),
         TResult.pending ≠ TResult.success t a) := by
  refine ⟨?_, by decide, fun t a h => by cases h⟩
  have hpe : pendingOrError d
      = (if d.status = some "in-progress" ∨ d.completed = some false
         then TResult.pending else TResult.unavailable) := by
    simp [pendingOrError]
  rcases hta with h1 | h1 <;> rcases ht with h2 | h2 <;>
    simp [get_call_transcript, h1, h2, hpe]

/-- Witness for claim C7: a detail response with no transcript data and
    status "in-progress" yields the pending outcome. -/
theorem claim7_witness :
    get_call_transcript (some "k") false none "cid" .noData .notOk
        (.ok ⟨none, none, some "in-progress", none, none⟩) (fun _ => none)
      = (.pending, []) := by
  have h := claim7_pending_outcome "k" "cid" none
      ⟨none, none, some "in-progress", none, none⟩ (fun _ => none)
      (Or.inl rfl) (Or.inl rfl)
  rw [h.1]
  decide

/-- Claim C3: for the call endpoint, a Guest request (no user_id, admin
    false) on a phone number whose history holds 10 successful call
    records is denied with the limit-reached message (without reaching
    the provider), while an Admin request under the same history skips
    moderation entirely (the result is identical for every moderation
    configuration and outcome), is allowed, and reports calls_left as
    unlimited. -/
theorem claim3_guest_denied_admin_unlimited (bk phone topic : String)
    (gkey : Option String) (net : GeminiOutcome) (bland : BlandOutcome)
    (hmod : jget (moderate_call gkey (some phone) net) "allowed"
      = some (.jbool true)) :
    (trigger_call (some bk) gkey ⟨phone, topic, false, none⟩ net bland
        (List.replicate 10 callSuccessRecord)
      = (.limitReached, List.replicate 10 callSuccessRecord))
    ∧ (∀ (gkey2 : Option String) (net2 : GeminiOutcome) (uid : Option String)
         (cid : Option String),
         trigger_call (some bk) gkey2 ⟨phone, topic, true, uid⟩ net2
            (.resp true cid) (List.replicate 10 callSuccessRecord)
          = (.callTriggered cid .unlimited,
             List.replicate 10 callSuccessRecord ++ [callSuccessRecord])) := by
  constructor
  · simp only [trigger_call]
    rw [hmod]
    rfl
  · intro gkey2 net2 uid cid
    simp only [trigger_call]
    cases uid with
    | none => rfl
    | some u =>
      by_cases hu : u = ""
      · subst hu; rfl
      · have : truthyS (some u) = true := by simp [truthyS, hu]
        simp [this]

/-- Witness for claim C3: the Guest denial at a concrete phone number
    with no moderation key configured (moderation allows). -/
theorem claim3_witness :
    trigger_call (some "k") none ⟨"+15550001111", "t", false, none⟩ .exn .exn
        (List.replicate 10 callSuccessRecord)
      = (.limitReached, List.replicate 10 callSuccessRecord) :=
  (claim3_guest_denied_admin_unlimited "k" "+15550001111" "t" none .exn .exn
      (by decide)).1

/-- Counterexample to claim C9 as stated: a 200 moderation response
    whose body parses as a JSON object that is NOT of the expected
    shape (it lacks the "allowed" key) is returned verbatim by
    moderate_call — allowed is not true, and the
    moderation_result allowed-key lookup in the caller raises an uncaught KeyError, so
    the non-admin call is blocked by a moderation-service malfunction. -/
theorem claim9_counterexample :
    (jget (moderate_call (some "g") (some "+15551234567")
        (.resp 200 (.loaded [("verdict", .jstr "ok")]))) "allowed" = none)
    ∧ ((trigger_call (some "k") (some "g") ⟨"+15551234567", "t", false, none⟩
        (.resp 200 (.loaded [("verdict", .jstr "ok")])) (.resp true (some "c"))
        []).1
      = .pyKeyError) := ⟨rfl, rfl⟩

/-- Claim C9 amended: moderate_call fails open — returns allowed = true
    — whenever the moderation HTTP call raises, returns a non-200
    status, yields no JSON-object match in the response text, or fails
    json.loads; but a body that parses to a JSON object is returned
    verbatim even when it lacks the expected keys, so moderation-service
    failure at that last stage can block a non-admin call (via a
    KeyError in the caller). -/
theorem claim9_moderation_fails_open (g phone : String)
    (hem : emergency_numbers.any (fun n => endsWithS n phone) = false) :
    (jget (moderate_call (some g) (some phone) .exn) "allowed"
      = some (.jbool true))
    ∧ (∀ (code : Nat) (parse : ParseOutcome), code ≠ 200 →
         jget (moderate_call (some g) (some phone) (.resp code parse)) "allowed"
           = some (.jbool true))
    ∧ (jget (moderate_call (some g) (some phone) (.resp 200 .raised)) "allowed"
      = some (.jbool true))
    ∧ (jget (moderate_call (some g) (some phone) (.resp 200 .noMatch)) "allowed"
      = some (.jbool true))
    ∧ (jget (moderate_call (some g) (some phone) (.resp 200 .loadFail)) "allowed"
      = some (.jbool true))
    ∧ (∀ o : JObj, moderate_call (some g) (some phone) (.resp 200 (.loaded o))
      = o) := by
  refine ⟨?_, ?_, ?_, ?_, ?_, ?_⟩
  · simp [moderate_call, hem, jget]
  · intro code parse hc
    simp [moderate_call, hem, hc, jget]
  · simp [moderate_call, hem, jget]
  · simp [moderate_call, hem, jget]
  · simp [moderate_call, hem, jget]
  · intro o
    simp [moderate_call, hem]

/-- Witness for claim C9: the fail-open behaviour at a concrete
    transport exception. -/
theorem claim9_witness :
    jget (moderate_call (some "g") (some "+15551234567") .exn) "allowed"
      = some (.jbool true) :=
  (claim9_moderation_fails_open "g" "+15551234567" (by decide)).1

/-- Counterexample to claim C1 as stated: a successful SMS record DOES
    count toward the call quota (a Guest with one successful SMS on the
    number gets calls_left 9, not the 10 the claim predicts, since no
    prior successful call exists), and an unsuccessful SMS record DOES
    count toward the SMS quota (a Guest with three failed SMS records is
    denied, though the claim predicts 3 − 0 = 3 remaining). -/
theorem claim1_counterexample :
    ((trigger_call (some "k") none ⟨"+15550001111", "t", false, none⟩ .exn
        (.resp true (some "cid")) [smsRecord "success"]).1
      = .callTriggered (some "cid") (.num 9))
    ∧ CallsLeft.num 9 ≠ .num 10
    ∧ ((send_sms (some "tk") ⟨"+15550001111", "m", false, none⟩
        (.resp true none none)
        [smsRecord "error", smsRecord "error", smsRecord "error"]).1
      = .limitReached 3) := by
  refine ⟨rfl, by decide, rfl⟩

/-- Claim C1 amended: call admission counts ALL prior history records
    with status "success" against the call quota — including successful
    SMS records, which the code stores in the same per-number list — and
    SMS admission counts all records with type "sms" regardless of
    status (successful, failed and raising sends alike); call records,
    which carry no type key, never count toward the SMS quota, and
    unsuccessful call records count toward neither quota. -/
theorem claim1_quota_counting (bk tk : String) (req : CallRequest)
    (sreq : SMSRequest) (gkey : Option String) (net : GeminiOutcome)
    (cid : Option String) (tb : TextbeltOutcome) (h1 h2 : List HistRecord)
    (hadm : req.admin = false) (hsadm : sreq.admin = false)
    (hmod : jget (moderate_call gkey (some req.phone_number) net) "allowed"
      = some (.jbool true)) :
    (trigger_call (some bk) gkey req net (.resp true cid) h1
      = (let mx : Int := ((if truthyS req.user_id then MAX_CALLS_PER_USER
             else MAX_CALLS_PER_GUEST : Nat) : Int)
         let left : Int :=
           mx - ((h1.filter (fun c => c.status = "success")).length : Int)
         if left ≤ 0 then (.limitReached, h1)
         else (.callTriggered cid (.num left), h1 ++ [callSuccessRecord])))
    ∧ ((send_sms (some tk) sreq tb h2).1
        = .limitReached (if truthyS sreq.user_id then 10 else 3)
      ↔ (h2.filter (fun r => r.type? = some "sms")).length
          ≥ (if truthyS sreq.user_id then 10 else 3)) := by
  constructor
  · obtain ⟨phone, topic, adm, uidr⟩ := req
    simp only at hadm hmod
    subst hadm
    simp only [trigger_call]
    rw [hmod]
    simp only [jtruthy]
    simp
  · obtain ⟨sphone, smsg, sadm, suid⟩ := sreq
    simp only at hsadm
    subst hsadm
    simp only [send_sms]
    by_cases hcnt : (h2.filter (fun r => r.type? = some "sms")).length
        ≥ (if truthyS suid then 10 else 3)
    · simp [hcnt]
    · cases tb with
      | exn => simp [hcnt]
      | resp success textId quotaRemaining =>
        cases success <;> simp [hcnt]

/-- Witness for claim C1: the amended counting applied at a history
    holding one successful SMS record — the Guest call quota drops to 9. -/
theorem claim1_witness :
    trigger_call (some "k") none ⟨"+15550001111", "t", false, none⟩ .exn
        (.resp true (some "c")) [smsRecord "success"]
      = (.callTriggered (some "c") (.num 9),
         [smsRecord "success", callSuccessRecord]) := by
  have h := (claim1_quota_counting "k" "tk" ⟨"+15550001111", "t", false, none⟩
      ⟨"+15550001111", "m", false, none⟩ none .exn (some "c")
      (.resp true none none) [smsRecord "success"] [smsRecord "error"]
      rfl rfl (by decide)).1
  rw [h]
  rfl

end Plektu
